import Mathlib

/-!
Verification of the facial-recognition / person-details Express backend.

The HTTP handlers from `src/server/routes/*.js` (the person-details router,
the facial-recognition router and the livestream router) are embedded as
pure Lean functions: request inputs become explicit arguments, the
in-memory `personDatabase` array becomes an explicit `List Person` threaded
through each handler, and the wall clock (`Date.now()` / `new Date()`)
becomes an explicit argument.  JavaScript truthiness of optional string
inputs (`if (!x)`) is modelled by `jsFalsy`: `undefined` is `none` and the
empty string is falsy.

Components of the aggregation core (Correlator, Entity Extractor) that the
repository documents but whose code is not present are modelled from the
spec; their doc comments say so explicitly.
-/

/-- A JSON value, used to model the JavaScript objects the router builds
and serializes with `res.json`.  A JS field explicitly assigned `null`
is `JValue.null`: the key is present in the serialized object. -/
inductive JValue where
  | null
  | str (s : String)
  | num (n : Int)
  | arr (xs : List JValue)
  | obj (fields : List (String × JValue))
deriving Repr

/-- JS truthiness test for an optional string: `undefined` and `""` are
falsy (`if (!x)` fires on both). -/
def jsFalsy : Option String → Bool
  | none => true
  | some s => s.isEmpty

/-- `x || null` on an optional string body field. -/
def jsOrNull : Option String → JValue
  | none => JValue.null
  | some s => if s.isEmpty then JValue.null else JValue.str s

/-- `interests || []` on an optional array body field. -/
def jsOrArr : Option (List String) → JValue
  | none => JValue.arr []
  | some l => JValue.arr (l.map JValue.str)

/-- `socialMedia || {}` on an optional object body field. -/
def jsOrObj : Option (List (String × String)) → JValue
  | none => JValue.obj []
  | some kvs => JValue.obj (kvs.map fun kv => (kv.1, JValue.str kv.2))

/-- One entry of the in-memory `personDatabase`.  Every handler in
`personDetails.js` assigns all eight keys, so the record carries all of
them; nullable ones are `JValue`s (`null` when the POST body omitted the
field). -/
structure Person where
  id : String
  faceId : String
  name : String
  birthday : JValue
  interests : JValue
  occupation : JValue
  location : JValue
  socialMedia : JValue
deriving Repr

/-- The JSON object `res.json` sends for a person: all eight keys are
always present (a `null`-valued field is serialized as `"key": null`,
not dropped). -/
def personJson (p : Person) : List (String × JValue) :=
  [("id", JValue.str p.id), ("faceId", JValue.str p.faceId),
   ("name", JValue.str p.name), ("birthday", p.birthday),
   ("interests", p.interests), ("occupation", p.occupation),
   ("location", p.location), ("socialMedia", p.socialMedia)]

/-- Key lookup in a serialized JSON object. -/
def lookupJson (k : String) (o : List (String × JValue)) : Option JValue :=
  (o.find? fun kv => kv.1 == k).map fun kv => kv.2

/-- The first seeded entry of the in-memory `personDatabase`. -/
def seedPerson1 : Person :=
  { id := "1", faceId := "face-001", name := "John Doe",
    birthday := JValue.str "1990-05-15",
    interests := JValue.arr [JValue.str "technology", JValue.str "music", JValue.str "sports"],
    occupation := JValue.str "Software Engineer",
    location := JValue.str "New York, USA",
    socialMedia := JValue.obj [("instagram", JValue.str "@johndoe"), ("twitter", JValue.str "@johndoe")] }

/-- The second seeded entry of the in-memory `personDatabase`. -/
def seedPerson2 : Person :=
  { id := "2", faceId := "face-002", name := "Jane Smith",
    birthday := JValue.str "1988-09-22",
    interests := JValue.arr [JValue.str "art", JValue.str "travel", JValue.str "photography"],
    occupation := JValue.str "Photographer",
    location := JValue.str "Los Angeles, USA",
    socialMedia := JValue.obj [("instagram", JValue.str "@janesmith"), ("twitter", JValue.str "@janesmith")] }

/-- The seeded in-memory database from the top of `personDetails.js`. -/
def personDatabase : List Person := [seedPerson1, seedPerson2]

/-- Outcome of `GET /api/person-details/search` and `GET /:personId`:
either a 400 caller error, a 404 not-found error, or a 200 success
carrying the person. -/
inductive SearchResult where
  | badRequest (error : String)
  | notFound (error message : String)
  | ok (person : Person)
deriving Repr

/-- HTTP status of a `SearchResult`. -/
def searchStatus : SearchResult → Nat
  | SearchResult.badRequest _ => 400
  | SearchResult.notFound _ _ => 404
  | SearchResult.ok _ => 200

/-- Whether the response body is an error object (has an `error` key). -/
def isErrorResult : SearchResult → Bool
  | SearchResult.badRequest _ => true
  | SearchResult.notFound _ _ => true
  | SearchResult.ok _ => false

/-- `GET /api/person-details/search` (personDetails.js): reject with 400
when `faceId` is falsy, otherwise look the person up with
`personDatabase.find(p => p.faceId === faceId)` and answer 404 or 200.
The handler never writes the database, so the returned state is the
input state. -/
def searchHandler (faceId : Option String) (db : List Person) :
    SearchResult × List Person :=
  match faceId with
  | none => (SearchResult.badRequest "faceId is required", db)
  | some s =>
    if s.isEmpty then (SearchResult.badRequest "faceId is required", db)
    else
      match db.find? (fun p => p.faceId == s) with
      | none => (SearchResult.notFound "Person not found"
                   "No matching person found for the given faceId", db)
      | some p => (SearchResult.ok p, db)

/-- `GET /api/person-details/:personId`: `personId` is a path parameter
(always a present string); look up by `id` and answer 404 or 200. -/
def personByIdHandler (personId : String) (db : List Person) :
    SearchResult × List Person :=
  match db.find? (fun p => p.id == personId) with
  | none => (SearchResult.notFound "Person not found"
               "No person found with the given ID", db)
  | some p => (SearchResult.ok p, db)

/-- Request body of `POST /api/person-details`. -/
structure PostBody where
  name : Option String
  birthday : Option String
  interests : Option (List String)
  occupation : Option String
  location : Option String
  faceId : Option String
  socialMedia : Option (List (String × String))

/-- Outcome of `POST /api/person-details`: 400, or 201 with the new
person. -/
inductive PostResult where
  | badRequest (error : String)
  | created (person : Person)
deriving Repr

/-- HTTP status of a `PostResult`. -/
def postStatus : PostResult → Nat
  | PostResult.badRequest _ => 400
  | PostResult.created _ => 201

/-- `POST /api/person-details`: reject with 400 if `name` or `faceId` is
falsy; otherwise build `newPerson` exactly as the source does (id is
`(personDatabase.length + 1).toString()`, missing optional fields become
`null` / `[]` / `\x7b\x7d`) and push it onto the database. -/
def postPersonHandler (b : PostBody) (db : List Person) :
    PostResult × List Person :=
  if jsFalsy b.name || jsFalsy b.faceId then
    (PostResult.badRequest "Name and faceId are required", db)
  else
    let newPerson : Person :=
      { id := toString (db.length + 1),
        faceId := b.faceId.getD "",
        name := b.name.getD "",
        birthday := jsOrNull b.birthday,
        interests := jsOrArr b.interests,
        occupation := jsOrNull b.occupation,
        location := jsOrNull b.location,
        socialMedia := jsOrObj b.socialMedia }
    (PostResult.created newPerson, db ++ [newPerson])

/-- A POST body that supplies only the required `name` and `faceId`,
leaving every optional field unsupplied. -/
def requiredOnlyBody (n fid : String) : PostBody :=
  { name := some n, birthday := none, interests := none,
    occupation := none, location := none, faceId := some fid,
    socialMedia := none }

/-- `GET /api/person-details`: list everything; count plus the array. -/
def listPersonsHandler (db : List Person) :
    (Nat × List Person) × List Person :=
  ((db.length, db), db)

section FacialRecognitionRoutes

/-- The `req.file` object multer attaches on `POST /process` (its
`filename` is the stored name multer generated, `originalname` the
client's name). -/
structure UploadedFile where
  filename : String
  path : String
  originalname : String

/-- Success body of `POST /api/facial-recognition/process`. -/
structure ProcessOk where
  processId : String
  videoFile : String
  status : String
  detectedFaces : List JValue
  message : String
deriving Repr

/-- Outcome of `POST /api/facial-recognition/process`. -/
inductive ProcessResult where
  | badRequest (error : String)
  | ok (r : ProcessOk)
deriving Repr

/-- `POST /api/facial-recognition/process`: 400 when no file was
uploaded; otherwise the mock result echoing the stored filename with an
empty `detectedFaces` list (`Date.now()` is the `now` argument). -/
def processHandler (file : Option UploadedFile) (now : Nat) : ProcessResult :=
  match file with
  | none => ProcessResult.badRequest "No video file uploaded"
  | some f => ProcessResult.ok
      { processId := toString now,
        videoFile := f.filename,
        status := "processing",
        detectedFaces := [],
        message := "Video uploaded successfully. Configure facial recognition API in .env for actual processing." }

/-- One detected face in an analyze-frame response. -/
structure Face where
  faceId : String
  confidence : ℚ
  boxX : Nat
  boxY : Nat
  boxWidth : Nat
  boxHeight : Nat
  age : Nat
  gender : String
  emotion : String
deriving Repr, DecidableEq

/-- The constant `mockFaces` array from the analyze-frame handler. -/
def mockFaces : List Face :=
  [{ faceId := "face-1", confidence := 95/100,
     boxX := 100, boxY := 100, boxWidth := 200, boxHeight := 200,
     age := 25, gender := "unknown", emotion := "neutral" }]

/-- Outcome of `POST /api/facial-recognition/analyze-frame`. -/
inductive AnalyzeResult where
  | badRequest (error : String)
  | ok (facesDetected : Nat) (faces : List Face) (timestamp : String)
deriving Repr

/-- The faces carried by an analyze-frame response (none on a 400). -/
def facesOf : AnalyzeResult → List Face
  | AnalyzeResult.badRequest _ => []
  | AnalyzeResult.ok _ faces _ => faces

/-- `POST /api/facial-recognition/analyze-frame`: 400 when `imageData`
is falsy, otherwise the constant mock face list, with the current time
(`new Date().toISOString()`) as the `now` argument.  The handler reads
and writes no stored state, which the embedding reflects by making it a
pure function of the request body and the clock alone. -/
def analyzeFrameHandler (imageData : Option String) (now : String) :
    AnalyzeResult :=
  if jsFalsy imageData then AnalyzeResult.badRequest "Image data is required"
  else AnalyzeResult.ok mockFaces.length mockFaces now

/-- Response of `GET /api/facial-recognition/results/:processId`; the
handler has no error path besides the generic catch, so the type is the
success body together with its HTTP status. -/
structure ResultsResponse where
  httpStatus : Nat
  processId : String
  status : String
  detectedFaces : List Face
  timestamp : String
deriving Repr

/-- `GET /api/facial-recognition/results/:processId`: always 200 with
status `"completed"` and an empty `detectedFaces`, whatever the
`processId`. -/
def resultsHandler (processId : String) (now : String) : ResultsResponse :=
  { httpStatus := 200, processId := processId, status := "completed",
    detectedFaces := [], timestamp := now }

/-- Outcome of `POST /api/livestream/capture`. -/
inductive CaptureResult where
  | badRequest (error : String)
  | ok (message livestreamUrl captureId note : String)
deriving Repr

/-- `POST /api/livestream/capture` (livestream.js): 400 when
`livestreamUrl` is falsy, otherwise echo the URL with a fresh capture
id (`Date.now()` is the `now` argument). -/
def captureHandler (livestreamUrl : Option String) (now : Nat) :
    CaptureResult :=
  match livestreamUrl with
  | none => CaptureResult.badRequest "Livestream URL is required"
  | some u =>
    if u.isEmpty then CaptureResult.badRequest "Livestream URL is required"
    else CaptureResult.ok "Livestream capture initiated" u (toString now)
      "Configure Instagram API credentials in .env file for actual implementation"

end FacialRecognitionRoutes

section Correlator

/-- Modelled from the spec: the repository's documentation describes a
Python aggregation backend (`services/aggregator.py`,
`services/llm_processor.py`) whose code is not in the repository
snapshot; this section models the Correlator of spec §4.4.  One
(field, value, originSourceId, strength) tuple, the atomic unit the
Correlator reasons over, with its payload's fetch time for
tie-breaking. -/
structure FieldAssertion where
  field : String
  value : String
  sourceId : String
  strength : ℚ
  fetchedAt : Nat

/-- Whitespace test used by normalization and tokenization. -/
def isSpaceChar (c : Char) : Bool :=
  c == ' ' || c == '\t' || c == '\n' || c == '\r'

/-- Modelled from the spec: normalization of a scalar string value,
"case-insensitive trim" — strip surrounding whitespace and lower-case
the rest. -/
def normalizeVal (s : String) : String :=
  String.mk
    (((s.toList.dropWhile isSpaceChar).reverse.dropWhile
        isSpaceChar).reverse.map Char.toLower)

/-- Modelled from the spec: one group of assertions sharing a
normalized value — its representative (first-seen) raw value, the sum
of strengths, the distinct contributing sources, and the most recent
fetch time for tie-breaking. -/
structure GroupSummary where
  repValue : String
  strengthSum : ℚ
  sources : List String
  latestFetch : Nat

/-- Modelled from the spec: add one assertion to the group whose
normalized value matches, or open a new group. -/
def insertAssertion : List GroupSummary → FieldAssertion → List GroupSummary
  | [], a => [{ repValue := a.value, strengthSum := a.strength,
                sources := [a.sourceId], latestFetch := a.fetchedAt }]
  | g :: gs, a =>
    if normalizeVal g.repValue == normalizeVal a.value then
      { repValue := g.repValue,
        strengthSum := g.strengthSum + a.strength,
        sources := if g.sources.contains a.sourceId then g.sources
                   else g.sources ++ [a.sourceId],
        latestFetch := max g.latestFetch a.fetchedAt } :: gs
    else g :: insertAssertion gs a

/-- Modelled from the spec: collect the run's assertions for one scalar
field and group them by normalized value (spec §4.4 steps 1–2). -/
def groupsFor (field : String) (assertions : List FieldAssertion) :
    List GroupSummary :=
  (assertions.filter fun a => a.field == field).foldl insertAssertion []

/-- Modelled from the spec: the score of a group,
`sum(strength_i) × log(1 + distinctSourceCount)` (spec §4.4 step 3). -/
noncomputable def groupScore (g : GroupSummary) : ℝ :=
  (g.strengthSum : ℝ) * Real.log (1 + (g.sources.length : ℝ))

open Classical in
/-- Modelled from the spec: of two groups keep the higher-scoring one,
breaking score ties by the more recent fetch time (spec §4.4 steps
4–5). -/
noncomputable def betterGroup (g h : GroupSummary) : GroupSummary :=
  if groupScore g < groupScore h ∨
     (groupScore g = groupScore h ∧ g.latestFetch < h.latestFetch) then h
  else g

/-- Modelled from the spec: the winning group of a field, if the field
has any assertions at all. -/
noncomputable def selectWinner : List GroupSummary → Option GroupSummary
  | [] => none
  | g :: gs => some (gs.foldl betterGroup g)

/-- Modelled from the spec: the winner's confidence,
`score / sum(all scores)`, bounded to [0,1] (spec §4.4 step 4). -/
noncomputable def winnerConfidence (g : GroupSummary)
    (gs : List GroupSummary) : ℝ :=
  min 1 (max 0 (groupScore g / (gs.map groupScore).sum))

/-- Modelled from the spec: correlate one scalar field — group the
assertions, pick the highest-scoring group, and report its
representative value with its derived confidence; a field with zero
assertions is omitted (`none`). -/
noncomputable def correlateScalar (field : String)
    (assertions : List FieldAssertion) : Option (String × ℝ) :=
  let gs := groupsFor field assertions
  match selectWinner gs with
  | none => none
  | some g => some (g.repValue, winnerConfidence g gs)

end Correlator

section EntityExtractor

/-- Modelled from the spec: the value of an extracted entity — a string
(names, locations) or a number (ages). -/
inductive EValue where
  | str (s : String)
  | num (n : Nat)
deriving Repr, DecidableEq

/-- Modelled from the spec: one candidate structured field produced by
the Entity Extractor, with its self-reported strength. -/
structure ExtractedEntity where
  field : String
  value : EValue
  strength : ℚ
deriving Repr, DecidableEq

/-- Modelled from the spec: pattern-path strengths are capped at 0.5. -/
def patternStrength : ℚ := 1/2

/-- Modelled from the spec: split a character stream into maximal runs
of alphanumeric characters (the accumulator holds the current word
reversed). -/
def splitWordsAux : List Char → List Char → List String
  | [], acc => if acc.isEmpty then [] else [String.mk acc.reverse]
  | c :: cs, acc =>
    if c.isAlphanum then splitWordsAux cs (c :: acc)
    else if acc.isEmpty then splitWordsAux cs []
    else String.mk acc.reverse :: splitWordsAux cs []

/-- Modelled from the spec: tokenize free text into alphanumeric words
(punctuation and spaces separate tokens). -/
def wordsOf (text : String) : List String := splitWordsAux text.toList []

/-- Modelled from the spec: a token counts as capitalized when its first
character is upper case. -/
def isCapitalized (w : String) : Bool :=
  match w.toList with
  | [] => false
  | c :: _ => c.isUpper

/-- Modelled from the spec: split the token stream into maximal runs of
capitalized words (the accumulator holds the current run reversed). -/
def capRunsAux : List String → List String → List (List String)
  | [], acc => if acc.isEmpty then [] else [acc.reverse]
  | w :: ws, acc =>
    if isCapitalized w then capRunsAux ws (w :: acc)
    else if acc.isEmpty then capRunsAux ws []
    else acc.reverse :: capRunsAux ws []

/-- Modelled from the spec: the maximal capitalized-word runs of the
token stream. -/
def capRuns (ws : List String) : List (List String) := capRunsAux ws []

/-- Join words with single spaces. -/
def joinWords : List String → String
  | [] => ""
  | [w] => w
  | w :: ws => w ++ " " ++ joinWords ws

/-- Modelled from the spec: the capitalized-word-sequence heuristic for
names — the first run of at least two capitalized words, joined by
spaces. -/
def nameOf (ws : List String) : Option String :=
  ((capRuns ws).find? fun r => 2 ≤ r.length).map joinWords

/-- Modelled from the spec: a 1–3 digit numeric token, as in the
`\b\d\x7b1,3\x7d\s*(years? old|yo)\b`-style age pattern. -/
def isAgeNumber (w : String) : Bool :=
  1 ≤ w.length && w.length ≤ 3 && w.toList.all Char.isDigit

/-- Modelled from the spec: whether the tokens right after a number
complete the age pattern (`years old`, `year old` or `yo`). -/
def ageUnitFollows : List String → Bool
  | "years" :: "old" :: _ => true
  | "year" :: "old" :: _ => true
  | "yo" :: _ => true
  | _ => false

/-- Decimal value of an all-digit token. -/
def natOfToken (w : String) : Nat :=
  w.toList.foldl (fun n c => 10 * n + (c.toNat - 48)) 0

/-- Modelled from the spec: scan the tokens for the age pattern and
return the matched number. -/
def findAge : List String → Option Nat
  | [] => none
  | w :: rest =>
    if isAgeNumber w && ageUnitFollows rest then some (natOfToken w)
    else findAge rest

/-- Modelled from the spec: the known-city gazetteer used by the
pattern-based location rule. -/
def gazetteer : List String :=
  ["Austin", "Seattle", "New York", "Los Angeles", "Chicago", "Boston"]

/-- Modelled from the spec: the first token found in the gazetteer. -/
def locationOf (ws : List String) : Option String :=
  ws.find? fun w => gazetteer.contains w

/-- Modelled from the spec: the pattern-based extraction strategy —
deterministic rules for name, age and location, each reported at the
pattern-path strength. -/
def patternExtract (text : String) : List ExtractedEntity :=
  let ts := wordsOf text
  (match nameOf ts with
   | some n => [{ field := "name", value := EValue.str n, strength := patternStrength }]
   | none => []) ++
  (match findAge ts with
   | some a => [{ field := "age", value := EValue.num a, strength := patternStrength }]
   | none => []) ++
  (match locationOf ts with
   | some l => [{ field := "location", value := EValue.str l, strength := patternStrength }]
   | none => [])

/-- Modelled from the spec: the AI-assisted strategy delegates to an
external backend, `extractEntities(text) -> entities | Error`, and on a
backend error falls back to the pattern-based path instead of failing
the adapter result. -/
def aiAssistedExtract (backend : String → Except String (List ExtractedEntity))
    (text : String) : List ExtractedEntity :=
  match backend text with
  | Except.ok es => es
  | Except.error _ => patternExtract text

/-- Modelled from the spec: a backend that always errors. -/
def failingBackend : String → Except String (List ExtractedEntity) :=
  fun _ => Except.error "backend unavailable"

end EntityExtractor

/-- Claim C1: a request that carries none of its required input fields —
a person-details search with a missing or empty `faceId`, or a
video-process request with no uploaded file — is rejected with an HTTP
400 caller error, and the rejection happens before any database lookup
or other work: the 400 response and the database are independent of the
database contents, the process rejection is independent of the clock,
and no handler state changes. -/
theorem missing_required_input_rejected_before_work :
    (∀ db : List Person,
       searchHandler none db = (SearchResult.badRequest "faceId is required", db) ∧
       searchHandler (some "") db = (SearchResult.badRequest "faceId is required", db)) ∧
    (∀ db₁ db₂ : List Person,
       (searchHandler none db₁).1 = (searchHandler none db₂).1 ∧
       (searchHandler (some "") db₁).1 = (searchHandler (some "") db₂).1) ∧
    (∀ now : Nat, processHandler none now = ProcessResult.badRequest "No video file uploaded") ∧
    (∀ n₁ n₂ : Nat, processHandler none n₁ = processHandler none n₂) :=
  ⟨fun _ => ⟨rfl, rfl⟩, fun _ _ => ⟨rfl, rfl⟩, fun _ => rfl, fun _ _ => rfl⟩

/-- Claim C2, counterexample: a search whose `faceId` reaches the
database but matches nothing is answered with HTTP 404 and an error
body (`error: "Person not found"`), not with a success-path empty
payload — refuting the claim at the concrete input
`GET /search?faceId=face-999` against the seeded database. -/
theorem search_no_match_is_http_error :
    searchStatus (searchHandler (some "face-999") personDatabase).1 = 404 ∧
    isErrorResult (searchHandler (some "face-999") personDatabase).1 = true := by
  constructor <;> rfl

/-- Claim C2, amended: a query that reaches the person database but
finds no matching record is reported to the caller as an HTTP 404 error
response with `error: "Person not found"` — both for
`GET /search?faceId=...` and for `GET /:personId`. -/
theorem no_match_reported_as_not_found :
    (∀ (s : String) (db : List Person), s.isEmpty = false →
       (∀ p ∈ db, p.faceId ≠ s) →
       searchHandler (some s) db =
         (SearchResult.notFound "Person not found"
            "No matching person found for the given faceId", db)) ∧
    (∀ (pid : String) (db : List Person), (∀ p ∈ db, p.id ≠ pid) →
       personByIdHandler pid db =
         (SearchResult.notFound "Person not found"
            "No person found with the given ID", db)) := by
  constructor
  · intro s db hs hnone
    have hfind : db.find? (fun p => p.faceId == s) = none :=
      List.find?_eq_none.mpr fun p hp => by
        simpa [beq_iff_eq] using hnone p hp
    simp [searchHandler, hs, hfind]
  · intro pid db hnone
    have hfind : db.find? (fun p => p.id == pid) = none :=
      List.find?_eq_none.mpr fun p hp => by
        simpa [beq_iff_eq] using hnone p hp
    simp [personByIdHandler, hfind]

/-- Witness for the amended C2 theorem at concrete inputs: faceId
`face-999` and personId `999` against the seeded database. -/
theorem no_match_reported_as_not_found_witness :
    searchHandler (some "face-999") personDatabase =
      (SearchResult.notFound "Person not found"
         "No matching person found for the given faceId", personDatabase) ∧
    personByIdHandler "999" personDatabase =
      (SearchResult.notFound "Person not found"
         "No person found with the given ID", personDatabase) :=
  ⟨no_match_reported_as_not_found.1 "face-999" personDatabase (by decide)
     (by decide),
   no_match_reported_as_not_found.2 "999" personDatabase (by decide)⟩

/-- Claim C3, counterexample: a person created through
`POST /api/person-details` with only `name` and `faceId` supplied does
not omit the unsupplied fields — its serialized record carries
`birthday`, `occupation` and `location` keys with `null` values (and
`interests: []`, `socialMedia: \x7b\x7d`), refuting the claim at the
concrete body `\x7bname: "Alice", faceId: "face-900"\x7d`. -/
theorem post_without_optionals_stores_null_fields :
    ∃ p : Person,
      (postPersonHandler (requiredOnlyBody "Alice" "face-900") personDatabase).1 =
        PostResult.created p ∧
      lookupJson "birthday" (personJson p) = some JValue.null ∧
      lookupJson "occupation" (personJson p) = some JValue.null ∧
      lookupJson "location" (personJson p) = some JValue.null ∧
      lookupJson "interests" (personJson p) = some (JValue.arr []) ∧
      lookupJson "socialMedia" (personJson p) = some (JValue.obj []) :=
  ⟨_, rfl, rfl, rfl, rfl, rfl, rfl⟩

/-- Claim C3, amended: for every profile field with no supplied value,
the stored and returned record keeps the field present with a `null`
placeholder (`[]` for `interests`, `\x7b\x7d` for `socialMedia`) rather than
omitting it: a person created without `birthday`, `occupation` or
`location` has those keys present and `null`-valued. -/
theorem post_without_optionals_keeps_null_placeholders :
    ∀ (n fid : String) (db : List Person),
      n.isEmpty = false → fid.isEmpty = false →
      ∃ p : Person,
        postPersonHandler (requiredOnlyBody n fid) db =
          (PostResult.created p, db ++ [p]) ∧
        lookupJson "birthday" (personJson p) = some JValue.null ∧
        lookupJson "occupation" (personJson p) = some JValue.null ∧
        lookupJson "location" (personJson p) = some JValue.null ∧
        lookupJson "interests" (personJson p) = some (JValue.arr []) ∧
        lookupJson "socialMedia" (personJson p) = some (JValue.obj []) := by
  intro n fid db hn hfid
  refine ⟨{ id := toString (db.length + 1), faceId := fid, name := n,
            birthday := JValue.null, interests := JValue.arr [],
            occupation := JValue.null, location := JValue.null,
            socialMedia := JValue.obj [] }, ?_, rfl, rfl, rfl, rfl, rfl⟩
  simp [postPersonHandler, jsFalsy, hn, hfid, requiredOnlyBody,
        jsOrNull, jsOrArr, jsOrObj]

/-- Witness for the amended C3 theorem at the concrete body
`\x7bname: "Alice", faceId: "face-900"\x7d` against the seeded database. -/
theorem post_without_optionals_keeps_null_placeholders_witness :
    ∃ p : Person,
      postPersonHandler (requiredOnlyBody "Alice" "face-900") personDatabase =
        (PostResult.created p, personDatabase ++ [p]) ∧
      lookupJson "birthday" (personJson p) = some JValue.null ∧
      lookupJson "occupation" (personJson p) = some JValue.null ∧
      lookupJson "location" (personJson p) = some JValue.null ∧
      lookupJson "interests" (personJson p) = some (JValue.arr []) ∧
      lookupJson "socialMedia" (personJson p) = some (JValue.obj []) :=
  post_without_optionals_keeps_null_placeholders "Alice" "face-900"
    personDatabase (by decide) (by decide)

/-- Claim C4: a run in which zero recognition adapters succeed still
answers the caller with a success response echoing the fields of the
original request: `POST /process` with a video file returns the stored
filename with an empty `detectedFaces` list, and `POST /capture` with a
livestream URL echoes the URL back. -/
theorem zero_successful_adapters_still_success :
    (∀ (f : UploadedFile) (now : Nat),
       processHandler (some f) now = ProcessResult.ok
         { processId := toString now, videoFile := f.filename,
           status := "processing", detectedFaces := [],
           message := "Video uploaded successfully. Configure facial recognition API in .env for actual processing." }) ∧
    (∀ (u : String) (now : Nat), u.isEmpty = false →
       captureHandler (some u) now =
         CaptureResult.ok "Livestream capture initiated" u (toString now)
           "Configure Instagram API credentials in .env file for actual implementation") := by
  refine ⟨fun f now => rfl, fun u now hu => ?_⟩
  simp [captureHandler, hu]

/-- Witness for the C4 theorem at a concrete upload and a concrete
livestream URL. -/
theorem zero_successful_adapters_still_success_witness :
    processHandler
        (some { filename := "17.mp4", path := "uploads/17.mp4",
                originalname := "clip.mp4" }) 17 =
      ProcessResult.ok
        { processId := "17", videoFile := "17.mp4", status := "processing",
          detectedFaces := [],
          message := "Video uploaded successfully. Configure facial recognition API in .env for actual processing." } ∧
    captureHandler (some "https://live.example/stream") 42 =
      CaptureResult.ok "Livestream capture initiated"
        "https://live.example/stream" "42"
        "Configure Instagram API credentials in .env file for actual implementation" :=
  ⟨zero_successful_adapters_still_success.1
     { filename := "17.mp4", path := "uploads/17.mp4", originalname := "clip.mp4" } 17,
   zero_successful_adapters_still_success.2 "https://live.example/stream" 42
     (by decide)⟩

/-- Claim C6: frame analysis is pure — for the same `imageData`, two
invocations of `POST /analyze-frame` at any two times return the same
list of detected faces (same faceIds, confidences, bounding boxes and
attributes), and for a non-falsy `imageData` that list is exactly the
constant mock list; the handler reads and writes no stored state
(embedded as a pure function of the request body and clock alone). -/
theorem analyze_frame_deterministic :
    ∀ (img : Option String) (t₁ t₂ : String),
      facesOf (analyzeFrameHandler img t₁) = facesOf (analyzeFrameHandler img t₂) ∧
      (jsFalsy img = false → facesOf (analyzeFrameHandler img t₁) = mockFaces) := by
  intro img t₁ t₂
  cases h : jsFalsy img <;> simp [analyzeFrameHandler, facesOf, h]

/-- Witness for the C6 theorem at a concrete image payload and two
concrete timestamps. -/
theorem analyze_frame_deterministic_witness :
    facesOf (analyzeFrameHandler (some "data:image/png;base64,AAAA") "t1") =
      facesOf (analyzeFrameHandler (some "data:image/png;base64,AAAA") "t2") ∧
    facesOf (analyzeFrameHandler (some "data:image/png;base64,AAAA") "t1") =
      mockFaces := by
  have h := analyze_frame_deterministic (some "data:image/png;base64,AAAA") "t1" "t2"
  exact ⟨h.1, h.2 (by decide)⟩

/-- Claim C10: for every `processId`, `GET /results/:processId` answers
HTTP 200 with status `"completed"`, an empty `detectedFaces` array and
the echoed `processId` — no not-found path exists in the handler. -/
theorem results_always_completed_empty :
    ∀ (processId now : String),
      (resultsHandler processId now).httpStatus = 200 ∧
      (resultsHandler processId now).status = "completed" ∧
      (resultsHandler processId now).detectedFaces = [] ∧
      (resultsHandler processId now).processId = processId :=
  fun _ _ => ⟨rfl, rfl, rfl, rfl⟩

/-- Claim C7: with an AI backend that always errors, the Entity
Extractor still returns the pattern-based results: on the literal input
`"John Smith, 34 years old, lives in Austin"` it extracts name
`"John Smith"`, age `34` and location `"Austin"`, each at a strength of
at most 0.5 (the Correlator/Extractor code is absent from the snapshot,
so this is settled against the spec-modelled extractor above). -/
theorem extraction_fallback_on_failing_backend :
    aiAssistedExtract failingBackend "John Smith, 34 years old, lives in Austin" =
      [{ field := "name", value := EValue.str "John Smith", strength := patternStrength },
       { field := "age", value := EValue.num 34, strength := patternStrength },
       { field := "location", value := EValue.str "Austin", strength := patternStrength }] ∧
    ∀ e ∈ aiAssistedExtract failingBackend
        "John Smith, 34 years old, lives in Austin", e.strength ≤ 1/2 := by
  have hres : aiAssistedExtract failingBackend
      "John Smith, 34 years old, lives in Austin" =
      [{ field := "name", value := EValue.str "John Smith", strength := patternStrength },
       { field := "age", value := EValue.num 34, strength := patternStrength },
       { field := "location", value := EValue.str "Austin", strength := patternStrength }] := by
    rfl
  refine ⟨hres, ?_⟩
  rw [hres]
  intro e he
  simp only [List.mem_cons, List.not_mem_nil, or_false] at he
  rcases he with h | h | h <;> subst h <;> norm_num [patternStrength]

/-- Claim C8: the GET endpoints of the person-details router leave the
database unchanged; a POST rejected with 400 for a missing `name` or
`faceId` also leaves it unchanged; a successful POST appends exactly
one entry. -/
theorem person_details_frame_effects :
    (∀ (q : Option String) (db : List Person), (searchHandler q db).2 = db) ∧
    (∀ (pid : String) (db : List Person), (personByIdHandler pid db).2 = db) ∧
    (∀ db : List Person, (listPersonsHandler db).2 = db) ∧
    (∀ (b : PostBody) (db : List Person),
       (jsFalsy b.name || jsFalsy b.faceId) = true →
       postPersonHandler b db =
         (PostResult.badRequest "Name and faceId are required", db)) ∧
    (∀ (b : PostBody) (db : List Person),
       (jsFalsy b.name || jsFalsy b.faceId) = false →
       ∃ p, postPersonHandler b db = (PostResult.created p, db ++ [p])) := by
  refine ⟨?_, ?_, fun _ => rfl, ?_, ?_⟩
  · intro q db
    match q with
    | none => rfl
    | some s =>
      simp only [searchHandler]
      split
      · rfl
      · cases db.find? (fun p => p.faceId == s) <;> rfl
  · intro pid db
    simp only [personByIdHandler]
    cases db.find? (fun p => p.id == pid) <;> rfl
  · intro b db h
    simp [postPersonHandler, h]
  · intro b db h
    refine ⟨{ id := toString (db.length + 1), faceId := b.faceId.getD "",
              name := b.name.getD "", birthday := jsOrNull b.birthday,
              interests := jsOrArr b.interests,
              occupation := jsOrNull b.occupation,
              location := jsOrNull b.location,
              socialMedia := jsOrObj b.socialMedia }, ?_⟩
    simp [postPersonHandler, h]

/-- Witness for the C8 theorem: a GET, a rejected POST (missing name)
and a successful POST, each against the seeded database. -/
theorem person_details_frame_effects_witness :
    (searchHandler (some "face-001") personDatabase).2 = personDatabase ∧
    postPersonHandler
        { name := none, birthday := none, interests := none,
          occupation := none, location := none, faceId := some "face-900",
          socialMedia := none } personDatabase =
      (PostResult.badRequest "Name and faceId are required", personDatabase) ∧
    ∃ p, postPersonHandler (requiredOnlyBody "Bob" "face-901") personDatabase =
      (PostResult.created p, personDatabase ++ [p]) :=
  ⟨person_details_frame_effects.1 (some "face-001") personDatabase,
   person_details_frame_effects.2.2.2.1 _ personDatabase (by decide),
   person_details_frame_effects.2.2.2.2 _ personDatabase (by decide)⟩

/-- Claim C9: `POST /api/person-details` does not enforce `faceId`
uniqueness — over any database already holding a person with the given
`faceId`, a valid POST carrying the same `faceId` succeeds and appends
its entry, and a subsequent `GET /search` with that `faceId` still
returns the earliest-added (first-listed) person carrying it. -/
theorem duplicate_faceid_allowed_search_returns_earliest :
    ∀ (db : List Person) (f : String) (b : PostBody) (p₀ : Person),
      db.find? (fun p => p.faceId == f) = some p₀ →
      b.faceId = some f →
      jsFalsy b.name = false →
      f.isEmpty = false →
      ∃ q : Person,
        postPersonHandler b db = (PostResult.created q, db ++ [q]) ∧
        q.faceId = f ∧
        (searchHandler (some f) (postPersonHandler b db).2).1 =
          SearchResult.ok p₀ := by
  intro db f b p₀ hfind hbf hname hf
  have hfalsy : jsFalsy b.faceId = false := by
    rw [hbf]; simpa [jsFalsy] using hf
  have hguard : (jsFalsy b.name || jsFalsy b.faceId) = false := by
    rw [hname, hfalsy]; rfl
  refine ⟨{ id := toString (db.length + 1), faceId := b.faceId.getD "",
            name := b.name.getD "", birthday := jsOrNull b.birthday,
            interests := jsOrArr b.interests,
            occupation := jsOrNull b.occupation,
            location := jsOrNull b.location,
            socialMedia := jsOrObj b.socialMedia },
          by simp [postPersonHandler, hguard], ?_, ?_⟩
  · simp [hbf]
  · have hsnd : (postPersonHandler b db).2 = db ++
        [{ id := toString (db.length + 1), faceId := b.faceId.getD "",
           name := b.name.getD "", birthday := jsOrNull b.birthday,
           interests := jsOrArr b.interests,
           occupation := jsOrNull b.occupation,
           location := jsOrNull b.location,
           socialMedia := jsOrObj b.socialMedia }] := by
      simp [postPersonHandler, hguard]
    rw [hsnd]
    simp only [searchHandler, hf]
    rw [List.find?_append, hfind]
    rfl

/-- Claim C5: when two independent sources assert the same normalized
value for a scalar field and a third source asserts a different value
at the same individual strength, the Correlator — scoring each group by
`sum(strength_i) × log(1 + distinctSourceCount)` and deriving confidence
as `score / sum(all scores)` — selects the corroborated value with
confidence strictly greater than 0.5 (the Correlator code is absent
from the snapshot, so this is settled against the spec-modelled
correlator above). -/
theorem corroborated_value_wins
    (fld v u s1 s2 s3 : String) (q : ℚ) (t1 t2 t3 : Nat)
    (hss : s1 ≠ s2)
    (hvu : normalizeVal v ≠ normalizeVal u)
    (hq : 0 < q) :
    ∃ c : ℝ,
      correlateScalar fld
        [{ field := fld, value := v, sourceId := s1, strength := q, fetchedAt := t1 },
         { field := fld, value := v, sourceId := s2, strength := q, fetchedAt := t2 },
         { field := fld, value := u, sourceId := s3, strength := q, fetchedAt := t3 }] =
        some (v, c) ∧ 1/2 < c := by
  have e21 : ((s2 : String) == s1) = false := beq_eq_false_iff_ne.mpr (Ne.symm hss)
  have evu : (normalizeVal v == normalizeVal u) = false := beq_eq_false_iff_ne.mpr hvu
  have hgs : groupsFor fld
      [{ field := fld, value := v, sourceId := s1, strength := q, fetchedAt := t1 },
       { field := fld, value := v, sourceId := s2, strength := q, fetchedAt := t2 },
       { field := fld, value := u, sourceId := s3, strength := q, fetchedAt := t3 }] =
      [{ repValue := v, strengthSum := q + q, sources := [s1, s2], latestFetch := max t1 t2 },
       { repValue := u, strengthSum := q, sources := [s3], latestFetch := t3 }] := by
    simp [groupsFor, insertAssertion, e21, evu, List.contains, List.elem]
  have hq' : (0:ℝ) < (q : ℝ) := by exact_mod_cast hq
  have hlog2 : (0:ℝ) < Real.log 2 := Real.log_pos (by norm_num)
  have hlog3 : (0:ℝ) < Real.log 3 := Real.log_pos (by norm_num)
  have hlog23 : Real.log 2 < Real.log 3 := Real.log_lt_log (by norm_num) (by norm_num)
  have hsA : groupScore { repValue := v, strengthSum := q + q, sources := [s1, s2], latestFetch := max t1 t2 } =
      ((q:ℝ) + (q:ℝ)) * Real.log 3 := by
    simp only [groupScore]
    push_cast
    norm_num
  have hsB : groupScore { repValue := u, strengthSum := q, sources := [s3], latestFetch := t3 } =
      (q:ℝ) * Real.log 2 := by
    simp only [groupScore]
    norm_num
  have hBA : groupScore { repValue := u, strengthSum := q, sources := [s3], latestFetch := t3 } <
      groupScore { repValue := v, strengthSum := q + q, sources := [s1, s2], latestFetch := max t1 t2 } := by
    rw [hsA, hsB]
    have h1 : (q:ℝ) * Real.log 2 < (q:ℝ) * Real.log 3 :=
      mul_lt_mul_of_pos_left hlog23 hq'
    have h2 : (0:ℝ) < (q:ℝ) * Real.log 3 := mul_pos hq' hlog3
    nlinarith
  have hbg : betterGroup
      { repValue := v, strengthSum := q + q, sources := [s1, s2], latestFetch := max t1 t2 }
      { repValue := u, strengthSum := q, sources := [s3], latestFetch := t3 } =
      { repValue := v, strengthSum := q + q, sources := [s1, s2], latestFetch := max t1 t2 } := by
    unfold betterGroup
    rw [if_neg]
    rintro (h | ⟨h, _⟩)
    · exact absurd h (not_lt.mpr hBA.le)
    · exact absurd h (ne_of_gt hBA)
  have hcorr : correlateScalar fld
      [{ field := fld, value := v, sourceId := s1, strength := q, fetchedAt := t1 },
       { field := fld, value := v, sourceId := s2, strength := q, fetchedAt := t2 },
       { field := fld, value := u, sourceId := s3, strength := q, fetchedAt := t3 }] =
      some (v, winnerConfidence
        { repValue := v, strengthSum := q + q, sources := [s1, s2], latestFetch := max t1 t2 }
        [{ repValue := v, strengthSum := q + q, sources := [s1, s2], latestFetch := max t1 t2 },
         { repValue := u, strengthSum := q, sources := [s3], latestFetch := t3 }]) := by
    simp only [correlateScalar, hgs, selectWinner, List.foldl, hbg]
  set A : ℝ := groupScore { repValue := v, strengthSum := q + q, sources := [s1, s2], latestFetch := max t1 t2 } with hA
  set B : ℝ := groupScore { repValue := u, strengthSum := q, sources := [s3], latestFetch := t3 } with hB
  have hBpos : (0:ℝ) < B := by rw [hsB]; exact mul_pos hq' hlog2
  have hApos : (0:ℝ) < A := lt_trans hBpos hBA
  have hABpos : (0:ℝ) < A + B := by linarith
  have hfrac1 : A / (A + B) ≤ 1 := (div_le_one hABpos).mpr (by linarith)
  have hfracpos : (0:ℝ) < A / (A + B) := div_pos hApos hABpos
  have hconf : winnerConfidence
      { repValue := v, strengthSum := q + q, sources := [s1, s2], latestFetch := max t1 t2 }
      [{ repValue := v, strengthSum := q + q, sources := [s1, s2], latestFetch := max t1 t2 },
       { repValue := u, strengthSum := q, sources := [s3], latestFetch := t3 }] =
      A / (A + B) := by
    simp only [winnerConfidence, List.map, List.sum_cons, List.sum_nil, add_zero]
    rw [max_eq_right hfracpos.le, min_eq_right hfrac1]
  have hhalf : (1:ℝ)/2 < A / (A + B) := by
    rw [lt_div_iff₀ hABpos]
    linarith
  exact ⟨A / (A + B), by rw [hcorr, hconf], hhalf⟩

/-- Witness for the C5 theorem at concrete inputs: sources A and B
assert location "Seattle", source C asserts "Portland", each at
strength 0.5. -/
theorem corroborated_value_wins_witness :
    ∃ c : ℝ,
      correlateScalar "location"
        [{ field := "location", value := "Seattle", sourceId := "A", strength := 1/2, fetchedAt := 0 },
         { field := "location", value := "Seattle", sourceId := "B", strength := 1/2, fetchedAt := 0 },
         { field := "location", value := "Portland", sourceId := "C", strength := 1/2, fetchedAt := 0 }] =
        some ("Seattle", c) ∧ 1/2 < c :=
  corroborated_value_wins "location" "Seattle" "Portland" "A" "B" "C" (1/2)
    0 0 0 (by decide) (by decide) (by norm_num)

/-- Witness for the C9 theorem: add a second person with faceId
`face-001` to the seeded database; the search still returns the seeded
first person. -/
theorem duplicate_faceid_allowed_search_returns_earliest_witness :
    ∃ q : Person,
      postPersonHandler (requiredOnlyBody "John Clone" "face-001") personDatabase =
        (PostResult.created q, personDatabase ++ [q]) ∧
      q.faceId = "face-001" ∧
      (searchHandler (some "face-001")
        (postPersonHandler (requiredOnlyBody "John Clone" "face-001") personDatabase).2).1 =
        SearchResult.ok seedPerson1 :=
  duplicate_faceid_allowed_search_returns_earliest personDatabase "face-001"
    (requiredOnlyBody "John Clone" "face-001") seedPerson1 rfl rfl (by decide)
    (by decide)
